import Mathlib

/-!
Shallow embedding of `watchdog.py` (sailgpt-watchdog): a single synthetic
health check classified against static baselines, with a human-readable
report.  The pure core consists of `classify` and `build_message`; the
ambient clock read performed by `now_str` inside `build_message` is made
explicit as a parameter `utcMin` (minutes since the Unix epoch, UTC).
Operations that can raise in Python (ordering comparison with `None`,
division) are embedded with `Except`-valued results so that "never raises"
claims are meaningful.
-/

namespace Watchdog

/-- Constant from watchdog.py line 7. -/
def URL : String := "https://sailgpt.tekdinext.com"

/-- IST_OFFSET = timedelta(hours=5, minutes=30), in minutes (line 8). -/
def IST_OFFSET_MIN : Int := 5 * 60 + 30

/-- BASELINE_SIZE = 1145 bytes (line 9). -/
def BASELINE_SIZE : Int := 1145

/-- BASELINE_TIME = 0.21 seconds (line 10), as an exact rational. -/
def BASELINE_TIME : Rat := 21 / 100

/-- SIZE_LOW = 900 (line 11). -/
def SIZE_LOW : Int := 900

/-- SIZE_HIGH = 1400 (line 12). -/
def SIZE_HIGH : Int := 1400

/-- SLOW_FACTOR = 2.0 (line 13). -/
def SLOW_FACTOR : Rat := 2

/-- SLOW_THRESHOLD = BASELINE_TIME * SLOW_FACTOR (line 14). -/
def SLOW_THRESHOLD : Rat := BASELINE_TIME * SLOW_FACTOR

/-- Abbreviated month name as produced by strftime %b. -/
def monthName : Nat → String
  | 1 => "Jan" | 2 => "Feb" | 3 => "Mar" | 4 => "Apr" | 5 => "May" | 6 => "Jun"
  | 7 => "Jul" | 8 => "Aug" | 9 => "Sep" | 10 => "Oct" | 11 => "Nov" | _ => "Dec"

/-- Civil (year, month, day) from a count of days since 1970-01-01,
proleptic Gregorian calendar (the arithmetic behind datetime). -/
def civilFromDays (z0 : Int) : Int × Nat × Nat :=
  let z := z0 + 719468
  let era : Int := z.fdiv 146097
  let doe : Nat := (z - era * 146097).toNat
  let yoe : Nat := (doe - doe / 1460 + doe / 36524 - doe / 146096) / 365
  let y : Int := (yoe : Int) + era * 400
  let doy : Nat := doe - (365 * yoe + yoe / 4 - yoe / 100)
  let mp : Nat := (5 * doy + 2) / 153
  let d : Nat := doy - (153 * mp + 2) / 5 + 1
  let m : Nat := if mp < 10 then mp + 3 else mp - 9
  (if m ≤ 2 then y + 1 else y, m, d)

/-- Zero-padded two-digit rendering, as strftime %d / %H / %M produce. -/
def pad2 (n : Nat) : String :=
  if n < 10 then "0" ++ toString n else toString n

/-- now_str (lines 18-20): datetime.utcnow() + IST_OFFSET rendered via
strftime("%d %b %Y, %H:%M IST").  The clock reading is the explicit
argument `utcMin`, minutes since the Unix epoch in UTC. -/
def now_str (utcMin : Int) : String :=
  let istMin := utcMin + IST_OFFSET_MIN
  let days := istMin.fdiv 1440
  let mins := (istMin - days * 1440).toNat
  let ymd := civilFromDays days
  pad2 ymd.2.2 ++ " " ++ monthName ymd.2.1 ++ " " ++ toString ymd.1 ++ ", " ++
    pad2 (mins / 60) ++ ":" ++ pad2 (mins % 60) ++ " IST"

/-- Python round-half-to-even to an integer, the rounding used by the
`:.Nf` format specifications in build_message. -/
def pyRoundHalfEven (x : Rat) : Int :=
  let n := x.floor
  let frac := x - (n : Rat)
  if frac < 1 / 2 then n
  else if 1 / 2 < frac then n + 1
  else if n % 2 = 0 then n else n + 1

/-- Python fixed-point formatting with `prec` decimal places: round half to even at
`prec` decimal places and render with exactly `prec` fractional digits. -/
def fmtFixed (prec : Nat) (x : Rat) : String :=
  let scaled := pyRoundHalfEven (x * ((10 : Rat) ^ prec))
  if prec = 0 then toString scaled
  else
    let sgn := if scaled < 0 then "-" else ""
    let m := scaled.natAbs
    let ip := m / 10 ^ prec
    let fp := m % 10 ^ prec
    let fpStr := toString fp
    let pad := String.mk (List.replicate (prec - fpStr.length) '0')
    sgn ++ toString ip ++ "." ++ pad ++ fpStr

/-- classify (lines 22-37).  `status_code`/`size_bytes` are optional ints,
`time_sec` an optional real (exact rational here), `error` an optional
string.  Python ordering comparisons against None raise TypeError, which
the embedding surfaces as `Except.error`. -/
def classify (status_code : Option Int) (size_bytes : Option Int)
    (time_sec : Option Rat) (error : Option String := none) :
    Except String (String × Option String) :=
  if error.isSome ∨ status_code = none ∨ status_code ≠ some 200 then
    Except.ok ("DOWN", some "ERROR")
  else
    match size_bytes with
    | none => Except.error "TypeError: NoneType is not orderable"
    | some sz =>
      if sz < SIZE_LOW ∨ sz > SIZE_HIGH then
        Except.ok ("ABNORMAL", some "CONTENT")
      else
        match time_sec with
        | none => Except.error "TypeError: NoneType is not orderable"
        | some t =>
          if t > SLOW_THRESHOLD then Except.ok ("ABNORMAL", some "SLOW")
          else Except.ok ("GOOD", none)

/-- Python true division where the numerator may be None: raises TypeError
on None and ZeroDivisionError on a zero denominator. -/
def pyDivOpt (a : Option Rat) (b : Rat) : Except String Rat :=
  match a with
  | none => Except.error "TypeError: unsupported operand"
  | some x => if b = 0 then Except.error "ZeroDivisionError" else Except.ok (x / b)

/-- Python truthiness of an optional int: None and 0 are falsy. -/
def truthyOptInt : Option Int → Bool
  | none => false
  | some n => n != 0

/-- Python truthiness of an optional float: None and 0.0 are falsy. -/
def truthyOptRat : Option Rat → Bool
  | none => false
  | some x => x != 0

/-- Python truthiness of an int: 0 is falsy. -/
def truthyInt (n : Int) : Bool := n != 0

/-- Python truthiness of a float: 0.0 is falsy. -/
def truthyRat (x : Rat) : Bool := x != 0

/-- Python truthiness of an optional string: None and "" are falsy. -/
def truthyOptStr : Option String → Bool
  | none => false
  | some s => s != ""

/-- build_message (lines 39-113).  `utcMin` is the clock reading consumed
by the internal now_str() call.  The result is `Except`-valued because the
two true divisions inside could in principle raise; every other formatting
path in the source is total. -/
def build_message (utcMin : Int) (state : String) (reason_tag : Option String)
    (status_code : Option Int) (size_bytes : Option Int)
    (time_sec : Option Rat) (error : Option String) : Except String String :=
  let ts := now_str utcMin
  let size_txt := match size_bytes with
    | some sz => toString sz ++ " bytes"
    | none => "N/A"
  let time_txt := match time_sec with
    | some t => fmtFixed 3 t ++ " s"
    | none => "N/A"
  let header := "SAILGPT WatchDog: " ++ state
  if state == "GOOD" then
    Except.ok (String.intercalate "  " [
      header,
      "SailGPT is behaving normally.",
      "Last check: " ++ ts,
      "Response time: " ++ time_txt ++ " (normal ~" ++ fmtFixed 2 BASELINE_TIME ++ " s)",
      "Page size: " ++ size_txt ++ " (normal ~" ++ toString BASELINE_SIZE ++ " bytes)"])
  else if state == "ABNORMAL" then
    if reason_tag == some "CONTENT" then
      match (if truthyOptInt size_bytes && truthyInt BASELINE_SIZE then
               Except.map (fun pct => fmtFixed 0 (pct * 100) ++ "% of normal")
                 (pyDivOpt (size_bytes.map fun n : Int => (n : Rat))
                   (BASELINE_SIZE : Rat))
             else Except.ok "unknown vs normal") with
      | Except.error err => Except.error err
      | Except.ok pct_txt =>
        Except.ok (String.intercalate "  " [
          "SAILGPT WatchDog: ABNORMAL (CONTENT)",
          "SailGPT is reachable, but the page content is unusual compared to normal.",
          "Last check: " ++ ts,
          "Page size: " ++ size_txt ++ " (normal ~" ++ toString BASELINE_SIZE ++ " bytes) = " ++ pct_txt ++ ".",
          "This may indicate an error page or backend issue. Please verify manually by logging in and sending a test prompt."])
    else if reason_tag == some "SLOW" then
      match (if truthyOptRat time_sec && truthyRat BASELINE_TIME then
               Except.map (fun factor => fmtFixed 1 factor ++ "X slower than normal")
                 (pyDivOpt time_sec BASELINE_TIME)
             else Except.ok "slower than normal") with
      | Except.error err => Except.error err
      | Except.ok factor_txt =>
        Except.ok (String.intercalate "  " [
          "SAILGPT WatchDog: ABNORMAL (SLOW)",
          "SailGPT is reachable, but slower than usual.",
          "Last check: " ++ ts,
          "Response time: " ++ time_txt ++ " (normal ~" ++ fmtFixed 2 BASELINE_TIME ++ " s) = " ++ factor_txt ++ ".",
          "Page size: " ++ size_txt ++ " (normal ~" ++ toString BASELINE_SIZE ++ " bytes).",
          "System is up, but performance is degraded. May please monitor and escalate if users report issues."])
    else
      Except.ok (String.intercalate "  " [
        "SAILGPT WatchDog: ABNORMAL",
        "SailGPT is reachable, but behaviour is unusual.",
        "Last check: " ++ ts,
        "Status code: " ++ (match status_code with | some c => toString c | none => "None"),
        "Response time: " ++ time_txt,
        "Page size: " ++ size_txt,
        "Please verify manually."])
  else
    let http_txt := match status_code with
      | some c => "HTTP " ++ toString c
      | none => "Unknown error"
    let err_txt := match error with
      | some e => if e ≠ "" then e else http_txt
      | none => http_txt
    Except.ok (String.intercalate "  " [
      "SAILGPT WatchDog: DOWN",
      "SailGPT is not reachable.",
      "Last check: " ++ ts,
      "Error: " ++ err_txt ++ ".",
      "This indicates an outage at the portal/infra level."])

/-! ## Classifier theorems -/

/-- C3: whenever `error` is set, or `status_code` is absent, or
`status_code ≠ 200`, classify returns (DOWN, ERROR) regardless of the size
and latency values, without evaluating them (in particular it does not
raise even when they are absent). -/
theorem classify_down_on_error_or_non200 (status_code : Option Int)
    (size_bytes : Option Int) (time_sec : Option Rat) (error : Option String)
    (h : error.isSome ∨ status_code = none ∨ status_code ≠ some 200) :
    classify status_code size_bytes time_sec error =
      Except.ok ("DOWN", some "ERROR") := by
  unfold classify
  rw [if_pos h]

/-- Witness for C3: a 500 status with all measurements absent is classified
DOWN/ERROR without raising. -/
theorem classify_down_on_error_or_non200_witness :
    ((none : Option String).isSome ∨ (some 500 : Option Int) = none ∨
      (some 500 : Option Int) ≠ some 200) ∧
    classify (some 500) none none none = Except.ok ("DOWN", some "ERROR") :=
  ⟨Or.inr (Or.inr (by decide)),
   classify_down_on_error_or_non200 (some 500) none none none
     (Or.inr (Or.inr (by decide)))⟩

/-- C4: with status 200, no error and a size outside [SIZE_LOW, SIZE_HIGH],
classify returns (ABNORMAL, CONTENT) whatever the latency is — even when it
is over the slow threshold, and even when it is absent: the content check
takes priority over the slow check. -/
theorem classify_content_overrides_slow (sz : Int) (time_sec : Option Rat)
    (h : sz < SIZE_LOW ∨ sz > SIZE_HIGH) :
    classify (some 200) (some sz) time_sec none =
      Except.ok ("ABNORMAL", some "CONTENT") := by
  unfold classify
  rw [if_neg (by simp)]
  exact if_pos h

/-- Witness for C4: size 500 with a latency of 1 s (over the 0.42 s slow
threshold) is still classified CONTENT, not SLOW. -/
theorem classify_content_overrides_slow_witness :
    ((500 : Int) < SIZE_LOW ∨ (500 : Int) > SIZE_HIGH) ∧
    classify (some 200) (some 500) (some 1) none =
      Except.ok ("ABNORMAL", some "CONTENT") :=
  ⟨Or.inl (by decide),
   classify_content_overrides_slow 500 (some 1) (Or.inl (by decide))⟩

/-- C5: with status 200, no error, size inside the closed window
[SIZE_LOW, SIZE_HIGH] and latency at most SLOW_THRESHOLD, classify returns
(GOOD, none); both window bounds are in-range and latency exactly equal to
the threshold is not slow. -/
theorem classify_good_in_window (sz : Int) (t : Rat)
    (h1 : SIZE_LOW ≤ sz) (h2 : sz ≤ SIZE_HIGH) (h3 : t ≤ SLOW_THRESHOLD) :
    classify (some 200) (some sz) (some t) none =
      Except.ok ("GOOD", none) := by
  unfold classify
  rw [if_neg (by simp)]
  exact (if_neg (by push_neg; exact ⟨h1, h2⟩)).trans
    (if_neg (by push_neg; exact h3))

/-- Witness for C5 at both boundaries: size exactly SIZE_LOW and latency
exactly SLOW_THRESHOLD classify as GOOD. -/
theorem classify_good_in_window_witness :
    SIZE_LOW ≤ (900 : Int) ∧ (900 : Int) ≤ SIZE_HIGH ∧
    SLOW_THRESHOLD ≤ SLOW_THRESHOLD ∧
    classify (some 200) (some 900) (some SLOW_THRESHOLD) none =
      Except.ok ("GOOD", none) :=
  ⟨by decide, by decide, le_refl _,
   classify_good_in_window 900 SLOW_THRESHOLD (by decide) (by decide)
     (le_refl _)⟩

/-- C1 counterexample: classify is not total over partly absent fields.
With status 200, no error and size_bytes absent, the Python comparison
`size_bytes < SIZE_LOW` is an ordering comparison against None and raises
TypeError, which the embedding surfaces as an `Except.error`. -/
theorem classify_absent_size_raises :
    classify (some 200) none none none =
      Except.error "TypeError: NoneType is not orderable" := rfl

/-- C1 (amended): classify never raises and returns one of the three
verdicts on every input in which error is set, or status_code is absent or
differs from 200, or size_bytes and elapsed_seconds are both present — in
particular all-absent fields resolve to DOWN/ERROR.  (With status 200, no
error, and size or time absent it raises TypeError instead.) -/
theorem classify_total_on_contract (status_code : Option Int)
    (size_bytes : Option Int) (time_sec : Option Rat) (error : Option String)
    (h : (error.isSome ∨ status_code = none ∨ status_code ≠ some 200) ∨
         (size_bytes.isSome ∧ time_sec.isSome)) :
    classify status_code size_bytes time_sec error =
        Except.ok ("DOWN", some "ERROR") ∨
    classify status_code size_bytes time_sec error =
        Except.ok ("ABNORMAL", some "CONTENT") ∨
    classify status_code size_bytes time_sec error =
        Except.ok ("ABNORMAL", some "SLOW") ∨
    classify status_code size_bytes time_sec error =
        Except.ok ("GOOD", none) := by
  unfold classify
  by_cases h0 : error.isSome ∨ status_code = none ∨ status_code ≠ some 200
  · rw [if_pos h0]
    exact Or.inl rfl
  · rw [if_neg h0]
    rcases h with h | ⟨hs, ht⟩
    · exact absurd h h0
    · rcases size_bytes with _ | sz
      · simp at hs
      · by_cases hsz : sz < SIZE_LOW ∨ sz > SIZE_HIGH
        · exact Or.inr (Or.inl (if_pos hsz))
        · rcases time_sec with _ | t
          · simp at ht
          · by_cases htt : t > SLOW_THRESHOLD
            · exact Or.inr (Or.inr (Or.inl ((if_neg hsz).trans (if_pos htt))))
            · exact Or.inr (Or.inr (Or.inr ((if_neg hsz).trans (if_neg htt))))

/-- Witness for C1 (amended): a fully absent outcome resolves to
DOWN/ERROR. -/
theorem classify_total_on_contract_witness :
    (((none : Option String).isSome ∨ (none : Option Int) = none ∨
        (none : Option Int) ≠ some 200) ∨
      ((none : Option Int).isSome ∧ (none : Option Rat).isSome)) ∧
    (classify none none none none = Except.ok ("DOWN", some "ERROR") ∨
     classify none none none none = Except.ok ("ABNORMAL", some "CONTENT") ∨
     classify none none none none = Except.ok ("ABNORMAL", some "SLOW") ∨
     classify none none none none = Except.ok ("GOOD", none)) :=
  ⟨Or.inl (Or.inr (Or.inl rfl)),
   classify_total_on_contract none none none none
     (Or.inl (Or.inr (Or.inl rfl)))⟩

/-! ## Reporter theorems -/

/-- C2: the Reporter is a pure deterministic function of its declared
inputs together with the supplied current time (the clock reading `utcMin`
consumed by the internal now_str call): two invocations on equal arguments
produce the same output string, and no effect beyond the returned value is
modelled anywhere in the core. -/
theorem build_message_deterministic
    (u₁ u₂ : Int) (s₁ s₂ : String) (r₁ r₂ : Option String)
    (c₁ c₂ : Option Int) (z₁ z₂ : Option Int) (t₁ t₂ : Option Rat)
    (e₁ e₂ : Option String)
    (hu : u₁ = u₂) (hs : s₁ = s₂) (hr : r₁ = r₂) (hc : c₁ = c₂)
    (hz : z₁ = z₂) (ht : t₁ = t₂) (he : e₁ = e₂) :
    build_message u₁ s₁ r₁ c₁ z₁ t₁ e₁ = build_message u₂ s₂ r₂ c₂ z₂ t₂ e₂ := by
  subst hu hs hr hc hz ht he
  rfl

/-- Witness for C2: two invocations on the same concrete arguments agree. -/
theorem build_message_deterministic_witness :
    (0 : Int) = 0 ∧ ("DOWN" : String) = "DOWN" ∧
    build_message 0 "DOWN" (some "ERROR") (some 500) none none none =
      build_message 0 "DOWN" (some "ERROR") (some 500) none none none :=
  ⟨rfl, rfl,
   build_message_deterministic 0 0 "DOWN" "DOWN" (some "ERROR") (some "ERROR")
     (some 500) (some 500) none none none none none none
     rfl rfl rfl rfl rfl rfl rfl⟩

/-- Rational floor characterised by its bounding inequalities. -/
theorem rat_floor_eq (x : Rat) (n : Int) (h1 : (n : Rat) ≤ x)
    (h2 : x < (n : Rat) + 1) : x.floor = n := by
  have hb : x.floor = ⌊x⌋ := by rw [Rat.floor_def', Rat.floor_def]
  rw [hb]
  exact Int.floor_eq_iff.mpr ⟨h1, by exact_mod_cast h2⟩

/-- Away from exact half-integers, Python round-half-even agrees with
rounding to the nearest integer. -/
theorem pyRoundHalfEven_eq_round (x : Rat)
    (h : x - ((x.floor : Int) : Rat) ≠ 1 / 2) :
    pyRoundHalfEven x = round x := by
  have hb : x.floor = ⌊x⌋ := by rw [Rat.floor_def', Rat.floor_def]
  unfold pyRoundHalfEven
  rw [hb] at h ⊢
  rw [round_eq]
  rcases lt_trichotomy (x - (⌊x⌋ : Rat)) (1 / 2) with hlt | heq | hgt
  · rw [if_pos hlt]
    symm
    refine Int.floor_eq_iff.mpr ⟨?_, ?_⟩
    · have := Int.floor_le x
      linarith
    · linarith
  · exact absurd heq h
  · rw [if_neg (by linarith), if_pos hgt]
    symm
    have hc : ((⌊x⌋ + 1 : Int) : Rat) = (⌊x⌋ : Rat) + 1 := by push_cast; ring
    refine Int.floor_eq_iff.mpr ⟨?_, ?_⟩
    · rw [hc]
      linarith
    · rw [hc]
      have := Int.lt_floor_add_one x
      linarith

/-- The content percentage of an integer byte count is never an exact
half-integer, by parity: 200·sz = 2290·n + 1145 is impossible. -/
theorem content_pct_no_tie (sz : Int) :
    (sz : Rat) / 1145 * 100 - ((((sz : Rat) / 1145 * 100).floor : Int) : Rat)
      ≠ 1 / 2 := by
  intro h
  set n : Int := ((sz : Rat) / 1145 * 100).floor with hn
  have hx : (sz : Rat) / 1145 * 100 = (n : Rat) + 1 / 2 := by linarith
  have h2 : (200 * sz : Rat) = 2290 * (n : Rat) + 1145 := by
    field_simp at hx
    linarith
  have h3 : (200 * sz : Int) = 2290 * n + 1145 := by exact_mod_cast h2
  omega

/-- C7 counterexample: in the DOWN branch with the error field present but
equal to the empty string, the Python truthiness test `error if error`
skips the error string and falls back to "HTTP {status_code}"; the claim
that the error text is used whenever the field is present is false. -/
theorem build_message_empty_error_cex :
    build_message 0 "DOWN" (some "ERROR") (some 500) none none (some "") =
      Except.ok ("SAILGPT WatchDog: DOWN  SailGPT is not reachable.  Last check: 01 Jan 1970, 05:30 IST  Error: HTTP 500.  This indicates an outage at the portal/infra level.") ∧
    ("SAILGPT WatchDog: DOWN  SailGPT is not reachable.  Last check: 01 Jan 1970, 05:30 IST  Error: HTTP 500.  This indicates an outage at the portal/infra level." : String) ≠
      "SAILGPT WatchDog: DOWN  SailGPT is not reachable.  Last check: 01 Jan 1970, 05:30 IST  Error: .  This indicates an outage at the portal/infra level." :=
  ⟨rfl, by decide⟩

/-- C7 (amended): in the DOWN branch the error text is the outcome error
string whenever the error field is present and non-empty; otherwise —
the error field absent, or present but empty — it is "HTTP {status_code}"
when a status code is present, and the literal "Unknown error" when the
status code is absent too. -/
theorem build_message_down_error_text (utcMin : Int) (reason_tag : Option String)
    (size_bytes : Option Int) (time_sec : Option Rat) :
    (∀ status_code : Option Int, ∀ e : String, e ≠ "" →
      build_message utcMin "DOWN" reason_tag status_code size_bytes time_sec
          (some e) =
        Except.ok (String.intercalate "  " [
          "SAILGPT WatchDog: DOWN",
          "SailGPT is not reachable.",
          "Last check: " ++ now_str utcMin,
          "Error: " ++ e ++ ".",
          "This indicates an outage at the portal/infra level."])) ∧
    (∀ error : Option String, ∀ c : Int, error = none ∨ error = some "" →
      build_message utcMin "DOWN" reason_tag (some c) size_bytes time_sec
          error =
        Except.ok (String.intercalate "  " [
          "SAILGPT WatchDog: DOWN",
          "SailGPT is not reachable.",
          "Last check: " ++ now_str utcMin,
          "Error: HTTP " ++ toString c ++ ".",
          "This indicates an outage at the portal/infra level."])) ∧
    (∀ error : Option String, error = none ∨ error = some "" →
      build_message utcMin "DOWN" reason_tag none size_bytes time_sec error =
        Except.ok (String.intercalate "  " [
          "SAILGPT WatchDog: DOWN",
          "SailGPT is not reachable.",
          "Last check: " ++ now_str utcMin,
          "Error: Unknown error.",
          "This indicates an outage at the portal/infra level."])) := by
  refine ⟨fun status_code e he => ?_, fun error c herr => ?_, fun error herr => ?_⟩
  · simp only [build_message]
    rw [if_pos he]
    rfl
  · rcases herr with rfl | rfl
    · simp only [build_message]
      rw [← String.append_assoc]
      rfl
    · simp only [build_message]
      rw [if_neg (show ¬(("" : String) ≠ "") by decide), ← String.append_assoc]
      rfl
  · rcases herr with rfl | rfl
    · rfl
    · rfl

/-- Witness for C7 (amended): scenario E — error "Connection refused" with
status absent renders exactly that error text — and the present-but-empty
error with status absent falls back to "Unknown error". -/
theorem build_message_down_error_text_witness :
    ("Connection refused" : String) ≠ "" ∧
    ((some "" : Option String) = none ∨ (some "" : Option String) = some "") ∧
    build_message 0 "DOWN" (some "ERROR") none none none
        (some "Connection refused") =
      Except.ok ("SAILGPT WatchDog: DOWN  SailGPT is not reachable.  Last check: 01 Jan 1970, 05:30 IST  Error: Connection refused.  This indicates an outage at the portal/infra level.") ∧
    build_message 0 "DOWN" (some "ERROR") none none none (some "") =
      Except.ok ("SAILGPT WatchDog: DOWN  SailGPT is not reachable.  Last check: 01 Jan 1970, 05:30 IST  Error: Unknown error.  This indicates an outage at the portal/infra level.") :=
  ⟨by decide, Or.inr rfl, by
    rw [(build_message_down_error_text 0 (some "ERROR") none none).1 none
      "Connection refused" (by decide)]
    rfl, by
    rw [(build_message_down_error_text 0 (some "ERROR") none none).2.2
      (some "") (Or.inr rfl)]
    rfl⟩

/-- Round-half-even evaluates to the floor when the value sits in the
lower half of its unit interval. -/
theorem pyRoundHalfEven_of_bounds (x : Rat) (n : Int)
    (h1 : (n : Rat) ≤ x) (h2 : x < (n : Rat) + 1 / 2) : pyRoundHalfEven x = n := by
  have hf : x.floor = n := rat_floor_eq x n h1 (by linarith)
  unfold pyRoundHalfEven
  rw [hf]
  exact if_pos (by linarith)

/-- Evaluation of the baseline-latency format: 0.21 at two decimal places
renders "0.21". -/
theorem fmtFixed_two_baseline : fmtFixed 2 BASELINE_TIME = "0.21" := by
  have h : pyRoundHalfEven (BASELINE_TIME * (10 : Rat) ^ (2 : Nat)) = 21 :=
    pyRoundHalfEven_of_bounds _ 21 (by norm_num [BASELINE_TIME])
      (by norm_num [BASELINE_TIME])
  unfold fmtFixed
  rw [h]
  rfl

/-- Evaluation: 0.0 at three decimal places renders "0.000". -/
theorem fmtFixed_three_zero : fmtFixed 3 (0 : Rat) = "0.000" := by
  have h : pyRoundHalfEven ((0 : Rat) * (10 : Rat) ^ (3 : Nat)) = 0 :=
    pyRoundHalfEven_of_bounds _ 0 (by norm_num) (by norm_num)
  unfold fmtFixed
  rw [h]
  rfl

/-- C8: in the ABNORMAL/CONTENT branch an absent or zero size yields the
literal fallback "unknown vs normal" in place of a ratio, and in the
ABNORMAL/SLOW branch an absent or zero elapsed time yields the literal
fallback "slower than normal" with no numeric multiplier. -/
theorem build_message_fallback_texts (utcMin : Int) (status_code : Option Int)
    (error : Option String) :
    (∀ time_sec : Option Rat,
      build_message utcMin "ABNORMAL" (some "CONTENT") status_code none
          time_sec error =
        Except.ok (String.intercalate "  " [
          "SAILGPT WatchDog: ABNORMAL (CONTENT)",
          "SailGPT is reachable, but the page content is unusual compared to normal.",
          "Last check: " ++ now_str utcMin,
          "Page size: N/A (normal ~1145 bytes) = unknown vs normal.",
          "This may indicate an error page or backend issue. Please verify manually by logging in and sending a test prompt."])) ∧
    (∀ time_sec : Option Rat,
      build_message utcMin "ABNORMAL" (some "CONTENT") status_code (some 0)
          time_sec error =
        Except.ok (String.intercalate "  " [
          "SAILGPT WatchDog: ABNORMAL (CONTENT)",
          "SailGPT is reachable, but the page content is unusual compared to normal.",
          "Last check: " ++ now_str utcMin,
          "Page size: 0 bytes (normal ~1145 bytes) = unknown vs normal.",
          "This may indicate an error page or backend issue. Please verify manually by logging in and sending a test prompt."])) ∧
    (∀ size_bytes : Option Int,
      build_message utcMin "ABNORMAL" (some "SLOW") status_code size_bytes
          none error =
        Except.ok (String.intercalate "  " [
          "SAILGPT WatchDog: ABNORMAL (SLOW)",
          "SailGPT is reachable, but slower than usual.",
          "Last check: " ++ now_str utcMin,
          "Response time: N/A (normal ~0.21 s) = slower than normal.",
          "Page size: " ++ (match size_bytes with
            | some sz => toString sz ++ " bytes"
            | none => "N/A") ++ " (normal ~" ++ toString BASELINE_SIZE ++ " bytes).",
          "System is up, but performance is degraded. May please monitor and escalate if users report issues."])) ∧
    (∀ size_bytes : Option Int,
      build_message utcMin "ABNORMAL" (some "SLOW") status_code size_bytes
          (some 0) error =
        Except.ok (String.intercalate "  " [
          "SAILGPT WatchDog: ABNORMAL (SLOW)",
          "SailGPT is reachable, but slower than usual.",
          "Last check: " ++ now_str utcMin,
          "Response time: 0.000 s (normal ~0.21 s) = slower than normal.",
          "Page size: " ++ (match size_bytes with
            | some sz => toString sz ++ " bytes"
            | none => "N/A") ++ " (normal ~" ++ toString BASELINE_SIZE ++ " bytes).",
          "System is up, but performance is degraded. May please monitor and escalate if users report issues."])) := by
  refine ⟨fun time_sec => ?_, fun time_sec => ?_,
    fun size_bytes => ?_, fun size_bytes => ?_⟩
  · rfl
  · rfl
  · simp only [build_message]
    rw [fmtFixed_two_baseline]
    rfl
  · simp only [build_message]
    rw [fmtFixed_two_baseline, fmtFixed_three_zero]
    rfl

/-- At zero decimal places, Python fixed-point formatting away from an
exact half renders the nearest integer. -/
theorem fmtFixed_zero_eq_round (x : Rat)
    (h : x - ((x.floor : Int) : Rat) ≠ 1 / 2) :
    fmtFixed 0 x = toString (round x) := by
  have h1 : x * (10 : Rat) ^ (0 : Nat) = x := by norm_num
  unfold fmtFixed
  rw [h1, pyRoundHalfEven_eq_round x h]
  rfl

/-- C9: in the ABNORMAL/CONTENT branch with a present non-zero size, the
message renders the size as size / BASELINE_SIZE × 100 rounded to the
nearest integer, suffixed "% of normal". -/
theorem build_message_content_percentage (utcMin : Int)
    (status_code : Option Int) (time_sec : Option Rat) (error : Option String)
    (sz : Int) (h : sz ≠ 0) :
    build_message utcMin "ABNORMAL" (some "CONTENT") status_code (some sz)
        time_sec error =
      Except.ok (String.intercalate "  " [
        "SAILGPT WatchDog: ABNORMAL (CONTENT)",
        "SailGPT is reachable, but the page content is unusual compared to normal.",
        "Last check: " ++ now_str utcMin,
        "Page size: " ++ (toString sz ++ " bytes") ++ " (normal ~" ++
          toString BASELINE_SIZE ++ " bytes) = " ++
          (toString (round ((sz : Rat) / 1145 * 100)) ++ "% of normal") ++ ".",
        "This may indicate an error page or backend issue. Please verify manually by logging in and sending a test prompt."]) := by
  have hguard : (truthyOptInt (some sz) && truthyInt BASELINE_SIZE) = true := by
    simp [truthyOptInt, truthyInt, BASELINE_SIZE, h]
  have hcast : ((BASELINE_SIZE : Int) : Rat) = (1145 : Rat) := by
    norm_num [BASELINE_SIZE]
  have hfmt : fmtFixed 0 ((sz : Rat) / ((BASELINE_SIZE : Int) : Rat) * 100) =
      toString (round ((sz : Rat) / 1145 * 100)) := by
    rw [hcast]
    exact fmtFixed_zero_eq_round _ (content_pct_no_tie sz)
  have hscrut : (if (truthyOptInt (some sz) && truthyInt BASELINE_SIZE) = true
        then
          Except.map (fun pct => fmtFixed 0 (pct * 100) ++ "% of normal")
            (pyDivOpt ((some sz).map fun n : Int => (n : Rat))
              ((BASELINE_SIZE : Int) : Rat))
        else Except.ok "unknown vs normal") =
      Except.ok (toString (round ((sz : Rat) / 1145 * 100)) ++ "% of normal") := by
    rw [if_pos hguard]
    have hdiv : pyDivOpt ((some sz).map fun n : Int => (n : Rat))
        ((BASELINE_SIZE : Int) : Rat) =
        Except.ok ((sz : Rat) / ((BASELINE_SIZE : Int) : Rat)) := by
      show pyDivOpt (some ((sz : Int) : Rat)) _ = _
      unfold pyDivOpt
      exact if_neg (by rw [hcast]; norm_num)
    rw [hdiv]
    show Except.ok (fmtFixed 0 ((sz : Rat) / ((BASELINE_SIZE : Int) : Rat) * 100)
      ++ "% of normal") = _
    rw [hfmt]
  simp only [build_message]
  rw [hscrut]
  rfl

/-- Witness for C9, scenario B: size 500 renders "44% of normal"
(500 / 1145 × 100 ≈ 43.7, rounded to 44). -/
theorem build_message_content_percentage_witness :
    (500 : Int) ≠ 0 ∧
    build_message 0 "ABNORMAL" (some "CONTENT") (some 200) (some 500)
        (some (2 / 10)) none =
      Except.ok ("SAILGPT WatchDog: ABNORMAL (CONTENT)  SailGPT is reachable, but the page content is unusual compared to normal.  Last check: 01 Jan 1970, 05:30 IST  Page size: 500 bytes (normal ~1145 bytes) = 44% of normal.  This may indicate an error page or backend issue. Please verify manually by logging in and sending a test prompt.") :=
  ⟨by decide, by
    rw [build_message_content_percentage 0 (some 200) (some (2 / 10)) none 500
      (by decide)]
    have hr : round (((500 : Int) : Rat) / 1145 * 100) = 44 := by
      norm_num [round_eq]
    rw [hr]
    rfl⟩

/-- The guarded percentage computation in the CONTENT branch never raises:
the truthiness guard rules out the None and zero cases before dividing. -/
theorem content_scrutinee_ok (size_bytes : Option Int) :
    ∃ s, (if (truthyOptInt size_bytes && truthyInt BASELINE_SIZE) = true then
        Except.map (fun pct => fmtFixed 0 (pct * 100) ++ "% of normal")
          (pyDivOpt (size_bytes.map fun n : Int => (n : Rat))
            ((BASELINE_SIZE : Int) : Rat))
      else Except.ok "unknown vs normal") = Except.ok s := by
  rcases size_bytes with _ | sz
  · exact ⟨"unknown vs normal", rfl⟩
  · by_cases h : sz = 0
    · subst h
      exact ⟨"unknown vs normal", if_neg (by simp [truthyOptInt])⟩
    · refine ⟨fmtFixed 0 ((sz : Rat) / ((BASELINE_SIZE : Int) : Rat) * 100) ++
        "% of normal", ?_⟩
      have hguard : (truthyOptInt (some sz) && truthyInt BASELINE_SIZE) = true := by
        simp [truthyOptInt, truthyInt, BASELINE_SIZE, h]
      rw [if_pos hguard]
      have hdiv : pyDivOpt (some ((sz : Int) : Rat)) ((BASELINE_SIZE : Int) : Rat) =
          Except.ok ((sz : Rat) / ((BASELINE_SIZE : Int) : Rat)) := by
        unfold pyDivOpt
        exact if_neg (by norm_num [BASELINE_SIZE])
      show Except.map _ (pyDivOpt (some ((sz : Int) : Rat)) _) = _
      rw [hdiv]
      rfl

/-- The guarded slowdown computation in the SLOW branch never raises:
the truthiness guard rules out the None and zero cases before dividing. -/
theorem slow_scrutinee_ok (time_sec : Option Rat) :
    ∃ s, (if (truthyOptRat time_sec && truthyRat BASELINE_TIME) = true then
        Except.map (fun factor => fmtFixed 1 factor ++ "X slower than normal")
          (pyDivOpt time_sec BASELINE_TIME)
      else Except.ok "slower than normal") = Except.ok s := by
  rcases time_sec with _ | t
  · exact ⟨"slower than normal", rfl⟩
  · by_cases h : t = 0
    · subst h
      exact ⟨"slower than normal", if_neg (by simp [truthyOptRat])⟩
    · refine ⟨fmtFixed 1 (t / BASELINE_TIME) ++ "X slower than normal", ?_⟩
      have hguard : (truthyOptRat (some t) && truthyRat BASELINE_TIME) = true := by
        simp only [truthyOptRat, truthyRat, Bool.and_eq_true, bne_iff_ne]
        refine ⟨h, ?_⟩
        norm_num [BASELINE_TIME]
      rw [if_pos hguard]
      have hdiv : pyDivOpt (some t) BASELINE_TIME =
          Except.ok (t / BASELINE_TIME) := by
        unfold pyDivOpt
        exact if_neg (by norm_num [BASELINE_TIME])
      rw [hdiv]
      rfl

/-- C6: build_message never raises on any combination of present and
absent fields in any state and reason, including zero sizes and times:
every formatting path resolves to an ok result. -/
theorem build_message_never_raises (utcMin : Int) (state : String)
    (reason_tag : Option String) (status_code : Option Int)
    (size_bytes : Option Int) (time_sec : Option Rat) (error : Option String) :
    (build_message utcMin state reason_tag status_code size_bytes time_sec
      error).isOk = true := by
  unfold build_message
  by_cases hg : (state == "GOOD") = true
  · rw [if_pos hg]
    rfl
  · rw [if_neg hg]
    by_cases ha : (state == "ABNORMAL") = true
    · rw [if_pos ha]
      by_cases hc : (reason_tag == some "CONTENT") = true
      · rw [if_pos hc]
        obtain ⟨s, hs⟩ := content_scrutinee_ok size_bytes
        rw [hs]
        rfl
      · rw [if_neg hc]
        by_cases hsl : (reason_tag == some "SLOW") = true
        · rw [if_pos hsl]
          obtain ⟨s, hs⟩ := slow_scrutinee_ok time_sec
          rw [hs]
          rfl
        · rw [if_neg hsl]
          rfl
    · rw [if_neg ha]
      rfl

/-- Structure of a five-line report: it starts with the watchdog banner
and carries a "Last check: " timestamp segment. -/
theorem ok_shape5 (r1 l2 ts l4 l5 : String) :
    ∃ out rest a b,
      Except.ok (ε := String) (String.intercalate "  "
        ["SAILGPT WatchDog: " ++ r1, l2, "Last check: " ++ ts, l4, l5]) =
        Except.ok out ∧
      out = "SAILGPT WatchDog: " ++ rest ∧
      out = a ++ ("Last check: " ++ b) := by
  refine ⟨_, r1 ++ "  " ++ l2 ++ "  " ++ ("Last check: " ++ ts) ++ "  " ++ l4 ++
      "  " ++ l5,
    "SAILGPT WatchDog: " ++ r1 ++ "  " ++ l2 ++ "  ",
    ts ++ "  " ++ l4 ++ "  " ++ l5, rfl, ?_, ?_⟩ <;>
    simp [String.intercalate, String.intercalate.go, String.append_assoc]

/-- Structure of a six-line report: it starts with the watchdog banner
and carries a "Last check: " timestamp segment. -/
theorem ok_shape6 (r1 l2 ts l4 l5 l6 : String) :
    ∃ out rest a b,
      Except.ok (ε := String) (String.intercalate "  "
        ["SAILGPT WatchDog: " ++ r1, l2, "Last check: " ++ ts, l4, l5, l6]) =
        Except.ok out ∧
      out = "SAILGPT WatchDog: " ++ rest ∧
      out = a ++ ("Last check: " ++ b) := by
  refine ⟨_, r1 ++ "  " ++ l2 ++ "  " ++ ("Last check: " ++ ts) ++ "  " ++ l4 ++
      "  " ++ l5 ++ "  " ++ l6,
    "SAILGPT WatchDog: " ++ r1 ++ "  " ++ l2 ++ "  ",
    ts ++ "  " ++ l4 ++ "  " ++ l5 ++ "  " ++ l6, rfl, ?_, ?_⟩ <;>
    simp [String.intercalate, String.intercalate.go, String.append_assoc]

/-- Structure of a seven-line report: it starts with the watchdog banner
and carries a "Last check: " timestamp segment. -/
theorem ok_shape7 (r1 l2 ts l4 l5 l6 l7 : String) :
    ∃ out rest a b,
      Except.ok (ε := String) (String.intercalate "  "
        ["SAILGPT WatchDog: " ++ r1, l2, "Last check: " ++ ts, l4, l5, l6,
          l7]) = Except.ok out ∧
      out = "SAILGPT WatchDog: " ++ rest ∧
      out = a ++ ("Last check: " ++ b) := by
  refine ⟨_, r1 ++ "  " ++ l2 ++ "  " ++ ("Last check: " ++ ts) ++ "  " ++ l4 ++
      "  " ++ l5 ++ "  " ++ l6 ++ "  " ++ l7,
    "SAILGPT WatchDog: " ++ r1 ++ "  " ++ l2 ++ "  ",
    ts ++ "  " ++ l4 ++ "  " ++ l5 ++ "  " ++ l6 ++ "  " ++ l7, rfl, ?_, ?_⟩ <;>
    simp [String.intercalate, String.intercalate.go, String.append_assoc]

/-- C10: every message build_message produces, in every state and reason
branch, begins with the prefix "SAILGPT WatchDog: " and contains a
"Last check: " timestamp segment. -/
theorem build_message_header_timestamp (utcMin : Int) (state : String)
    (reason_tag : Option String) (status_code : Option Int)
    (size_bytes : Option Int) (time_sec : Option Rat) (error : Option String) :
    ∃ out rest a b,
      build_message utcMin state reason_tag status_code size_bytes time_sec
          error = Except.ok out ∧
      out = "SAILGPT WatchDog: " ++ rest ∧
      out = a ++ ("Last check: " ++ b) := by
  unfold build_message
  by_cases hg : (state == "GOOD") = true
  · rw [if_pos hg]
    exact ok_shape5 state "SailGPT is behaving normally." (now_str utcMin) _ _
  · rw [if_neg hg]
    by_cases ha : (state == "ABNORMAL") = true
    · rw [if_pos ha]
      by_cases hc : (reason_tag == some "CONTENT") = true
      · rw [if_pos hc]
        obtain ⟨s, hs⟩ := content_scrutinee_ok size_bytes
        rw [hs]
        exact ok_shape5 "ABNORMAL (CONTENT)"
          "SailGPT is reachable, but the page content is unusual compared to normal."
          (now_str utcMin) _ _
      · rw [if_neg hc]
        by_cases hsl : (reason_tag == some "SLOW") = true
        · rw [if_pos hsl]
          obtain ⟨s, hs⟩ := slow_scrutinee_ok time_sec
          rw [hs]
          exact ok_shape6 "ABNORMAL (SLOW)"
            "SailGPT is reachable, but slower than usual."
            (now_str utcMin) _ _ _
        · rw [if_neg hsl]
          exact ok_shape7 "ABNORMAL"
            "SailGPT is reachable, but behaviour is unusual."
            (now_str utcMin) _ _ _ _
    · rw [if_neg ha]
      exact ok_shape5 "DOWN" "SailGPT is not reachable." (now_str utcMin) _ _

end Watchdog
